import Mathlib

/-!
Verification development for the dhcp6d example server
(`cmd/dhcp6d/main.go`).  The request-classification and
address-assignment core is embedded shallowly: bytes are `Nat`,
byte strings are `List Nat`, the mutable response sender is threaded
explicitly, and log output is collected as a list of structured
entries.  The option container, DUID decoders, IAAddr constructor and
EUI-64 synthesis live in packages outside the embedded sources; those
are modelled from the specification, as marked on each definition.
-/

set_option autoImplicit false

/-- DHCPv6 message types, as enumerated by the external interface
(`dhcp6.MessageType`). -/
inductive MessageType where
  | solicit
  | advertise
  | request
  | confirm
  | renew
  | rebind
  | reply
  | release
  | decline
  | reconfigure
  | informationRequest
  | relayForw
  | relayRepl
  deriving DecidableEq, Repr

/-- Errors surfaced by the core's collaborators.  `invalidIP` models the
EUI-64 prefix-extraction failure, `invalidMAC` the EUI-64 synthesis
failure on a hardware address that is not 48 bits, `invalidIAAddrIP`
the IAAddr constructor's rejection of a non-IPv6 address. -/
inductive Err where
  | invalidIP
  | invalidMAC
  | invalidIAAddrIP
  deriving DecidableEq, Repr

/-- Modelled from the spec: an IAAddr (leased address record) carries an
IPv6 address, the preferred and valid lifetimes (held in seconds), and
an optional nested option set (always empty when built by this server). -/
structure IAAddr where
  ip : List Nat
  preferredLifetime : Nat
  validLifetime : Nat
  options : List (Nat × List Nat)
  deriving DecidableEq, Repr

/-- Modelled from the spec: an Identity Association (IANA) has an opaque
4-byte IAID, two advisory timers T1/T2, and a nested option set; the
core reads and writes only the IAAddr entries of that option set, so the
model keeps exactly those. -/
structure IANA where
  iaid : List Nat
  t1 : Nat
  t2 : Nat
  iaaddrs : List IAAddr
  deriving DecidableEq, Repr

/-- Modelled from the spec: the inbound Request, already decoded by the
external codec.  The option container is represented by the three
lookups the core performs on it: first client-identifier value,
all IANA options, and the requested-option list. -/
structure Request where
  messageType : MessageType
  transactionID : List Nat
  remoteAddr : List Nat
  clientID : Option (List Nat)
  ianas : List IANA
  optionRequest : Option (List Nat)
  length : Nat
  deriving DecidableEq, Repr

/-- Options the core adds to the reply accumulator. -/
inductive ReplyOption where
  | preference (value : Nat)
  | iana (ia : IANA)
  deriving DecidableEq, Repr

/-- Modelled from the spec: the outbound Response Sender exposes a
mutable option container and a finalize-and-transmit operation; the
model records the accumulated options and the list of transmit calls
made (each with its message type). -/
structure Sender where
  options : List ReplyOption
  sends : List MessageType
  deriving DecidableEq, Repr

/-- Structured log entries, one per logging statement of the source. -/
inductive LogEntry where
  | unrecognizedType (mt : MessageType)
  | clientIDNotFound
  | unknownDUID
  | errLog (e : Err)
  | requestInfo (duid ip mac remote : List Nat) (mt : MessageType)
      (len : Nat) (tx : List Nat)
  | requestedOptions (codes : List Nat)
  | ianaInfo (iaid : List Nat) (t1 t2 : Nat)
  | noIANAs
  | tooManyIANAs
  | iaaddrInfo (ip : List Nat) (pl vl : Nat)
  | printOptions
  | advertisingIP (ip : List Nat)
  | handlerError (e : Err)
  deriving DecidableEq, Repr

/-- Result of one handler invocation: the updated sender, the log lines
emitted, and the error returned (if any). -/
structure HandlerOut where
  w : Sender
  log : List LogEntry
  err : Option Err
  deriving DecidableEq, Repr

/-- Modelled from the spec: the Response Sender's option container `Add`
operation appends to the accumulated reply options. -/
def addReplyOption (w : Sender) (o : ReplyOption) : Sender :=
  { w with options := w.options ++ [o] }

/-- Modelled from the spec: the Response Sender's finalize-and-transmit
operation (`w.Send`), parameterized by the reply message type.  The
transport itself is external, so the model records the call and
succeeds. -/
def send (w : Sender) (mt : MessageType) : Sender × Option Err :=
  ({ w with sends := w.sends ++ [mt] }, none)

/-- Modelled from the spec: `dhcp6opts.DUIDLLT.UnmarshalBinary`.  A
DUID-LLT is a 2-byte type code 1, a 2-byte hardware type, a 4-byte
timestamp, then the link-layer (MAC) address; any other shape is a
decode failure, not a default value. -/
def decodeDUIDLLT (b : List Nat) : Option (List Nat) :=
  if 8 ≤ b.length ∧ b.take 2 = [0, 1] then some (b.drop 8) else none

/-- Modelled from the spec: `dhcp6opts.DUIDLL.UnmarshalBinary`.  A
DUID-LL is a 2-byte type code 3, a 2-byte hardware type, then the
link-layer (MAC) address; any other shape is a decode failure. -/
def decodeDUIDLL (b : List Nat) : Option (List Nat) :=
  if 4 ≤ b.length ∧ b.take 2 = [0, 3] then some (b.drop 4) else none

/-- The client-identity resolution of `handle` (main.go lines 85-97):
try DUID-LLT first; on failure try DUID-LL; on failure give up. -/
def resolveDUID (duid : List Nat) : Option (List Nat) :=
  match decodeDUIDLLT duid with
  | some mac => some mac
  | none =>
    match decodeDUIDLL duid with
    | some mac => some mac
    | none => none

/-- True when an IPv6 byte string is an IPv4-mapped address
(`ip.To4() != nil` on a 16-byte value). -/
def isIPv4Mapped (ip : List Nat) : Bool :=
  ip.take 12 = [0, 0, 0, 0, 0, 0, 0, 0, 0, 0, 0xff, 0xff]

/-- Modelled from the spec: `eui64.ParseIP` splits a valid IPv6 address
into its 64-bit network portion (first 8 bytes) and interface
identifier; it fails on anything that is not a plain IPv6 address,
such as an IPv4-mapped value. -/
def parseIP (ip : List Nat) : Except Err (List Nat) :=
  if ip.length = 16 ∧ isIPv4Mapped ip = false then .ok (ip.take 8)
  else .error .invalidIP

/-- Modelled from the spec: the modified EUI-64 interface identifier of
a 48-bit MAC — the two 24-bit halves with `FFFE` inserted between them
and the universal/local bit (bit 1 of the first octet) flipped. -/
def eui64Interface (mac : List Nat) : List Nat :=
  match mac with
  | a :: b :: c :: d :: e :: f :: _ =>
    [a ^^^ 2, b, c, 0xff, 0xfe, d, e, f]
  | _ => []

/-- Modelled from the spec: `eui64.ParseMAC` merges the interface
identifier derived from a 48-bit MAC into the low 64 bits of the given
prefix; a hardware address that is not 48 bits is rejected. -/
def parseMAC (pfx mac : List Nat) : Except Err (List Nat) :=
  if mac.length = 6 then .ok (pfx ++ eui64Interface mac)
  else .error .invalidMAC

/-- The address the server synthesizes for a configured prefix and a
client MAC: the network half of the configured address followed by the
modified EUI-64 interface identifier. -/
def addressFor (ip mac : List Nat) : List Nat :=
  ip.take 8 ++ eui64Interface mac

/-- Modelled from the spec: `dhcp6opts.NewIAAddr` builds a leased
address record with the given lifetimes and no nested options; it
rejects a value that is not an IPv6 address. -/
def NewIAAddr (ip : List Nat) (pl vl : Nat) : Except Err IAAddr :=
  if ip.length = 16 then .ok ⟨ip, pl, vl, []⟩
  else .error .invalidIAAddrIP

/-- The two handler kinds reachable from the dispatch table. -/
inductive HKind where
  | solicitH
  | releaseH
  deriving DecidableEq, Repr

/-- The dispatch table of `handle` (main.go lines 66-71): Solicit,
Request and Confirm share `solicitHandler`; Release gets
`releaseHandler`; every other message type is absent. -/
def lookupHandler : MessageType → Option HKind
  | .solicit => some .solicitH
  | .request => some .solicitH
  | .confirm => some .solicitH
  | .release => some .releaseH
  | _ => none

/-- `releaseHandler` (main.go lines 131-134): send an empty Reply. -/
def releaseHandler (ip : List Nat) (w : Sender) (r : Request) : HandlerOut :=
  let s := send w .reply
  ⟨s.1, [], s.2⟩

/-- `newIAAddr` (main.go lines 216-233): build an IAAddr with 60s/90s
lifetimes for the synthesized address, nest it into the client's IANA,
attach the IANA to the reply, and send an Advertise. -/
def newIAAddr (ia : IANA) (ip : List Nat) (w : Sender) (r : Request) : HandlerOut :=
  match NewIAAddr ip 60 90 with
  | .error e => ⟨w, [.printOptions], some e⟩
  | .ok iaaddr =>
    let ia2 := { ia with iaaddrs := ia.iaaddrs ++ [iaaddr] }
    let w2 := addReplyOption w (.iana ia2)
    let s := send w2 .advertise
    ⟨s.1, [.printOptions, .advertisingIP ip], s.2⟩

/-- `solicitHandler` (main.go lines 136-212).  The `ip` argument is the
address already synthesized by `handle`.  No IANA or more than one IANA
drops the request; with exactly one IANA a Preference 255 option is
accumulated, then: a Solicit always advertises a fresh IAAddr; a
non-Solicit with no prior IAAddr is ignored; a non-Solicit with a prior
IAAddr re-derives the address, nests a fresh IAAddr after the echoed
ones, and sends an Advertise.  (The source's dead `len(iaaddrs) == 0`
guard after a successful IAAddr lookup is subsumed by the match.) -/
def solicitHandler (ip : List Nat) (w : Sender) (r : Request) : HandlerOut :=
  match r.ianas with
  | [] => ⟨w, [.noIANAs], none⟩
  | ia :: rest =>
    if (ia :: rest).length > 1 then ⟨w, [.tooManyIANAs], none⟩
    else
      let log0 : List LogEntry := [.ianaInfo ia.iaid ia.t1 ia.t2]
      let w1 := addReplyOption w (.preference 255)
      match ia.iaaddrs with
      | [] =>
        if r.messageType = .solicit then
          let o := newIAAddr ia ip w1 r
          ⟨o.w, log0 ++ o.log, o.err⟩
        else ⟨w1, log0, none⟩
      | iaa :: _ =>
        if r.messageType = .solicit then
          let o := newIAAddr ia ip w1 r
          ⟨o.w, log0 ++ o.log, o.err⟩
        else
          let log1 := log0 ++
            [.iaaddrInfo iaa.ip iaa.preferredLifetime iaa.validLifetime]
          match NewIAAddr ip 60 90 with
          | .error e => ⟨w1, log1, some e⟩
          | .ok fresh =>
            let ia2 := { ia with iaaddrs := ia.iaaddrs ++ [fresh] }
            let w2 := addReplyOption w1 (.iana ia2)
            let s := send w2 .advertise
            ⟨s.1, log1, s.2⟩

/-- Run the handler selected by the dispatch table. -/
def runHandler : HKind → List Nat → Sender → Request → HandlerOut
  | .solicitH => solicitHandler
  | .releaseH => releaseHandler

/-- The diagnostic log lines `handle` emits after identity resolution
and address synthesis succeed (main.go lines 110-127): the structured
request line, then the requested-option list when present. -/
def dispatchLogs (duid ip2 mac : List Nat) (r : Request) : List LogEntry :=
  [.requestInfo duid ip2 mac r.remoteAddr r.messageType r.length
      r.transactionID] ++
    (match r.optionRequest with
     | some codes => [.requestedOptions codes]
     | none => [])

/-- `handle` (main.go lines 63-129): look up a handler by message type
(unknown types are logged and dropped); require and decode the client
identifier (failures are logged and dropped); extract the configured
prefix and synthesize the client's address by EUI-64 (failures are
logged and returned); log diagnostics; then run the selected handler on
the synthesized address. -/
def handle (ip : List Nat) (w : Sender) (r : Request) : HandlerOut :=
  match lookupHandler r.messageType with
  | none => ⟨w, [.unrecognizedType r.messageType], none⟩
  | some hk =>
    match r.clientID with
    | none => ⟨w, [.clientIDNotFound], none⟩
    | some duid =>
      match resolveDUID duid with
      | none => ⟨w, [.unknownDUID], none⟩
      | some mac =>
        match parseIP ip with
        | .error e => ⟨w, [.errLog e], some e⟩
        | .ok pfx =>
          match parseMAC pfx mac with
          | .error e => ⟨w, [.errLog e], some e⟩
          | .ok ip2 =>
            let o := runHandler hk ip2 w r
            ⟨o.w, dispatchLogs duid ip2 mac r ++ o.log, o.err⟩

/-- `Handler.ServeDHCP` (main.go lines 52-56): invoke the internal
handler and log any returned error; nothing is returned to the caller,
so an error is never retried and never propagated further. -/
def ServeDHCP (ip : List Nat) (w : Sender) (r : Request) : Sender × List LogEntry :=
  let o := handle ip w r
  match o.err with
  | some e => (o.w, o.log ++ [.handlerError e])
  | none => (o.w, o.log)

/-- Characterization of the requests `handle` drops or aborts without
transmitting a reply: unrecognized message type, missing client
identifier, undecodable DUID, failed prefix extraction or address
synthesis, and — for the Identity-Association handler — no IANA, more
than one IANA, or a non-Solicit whose IANA holds no IAAddr. -/
def isDropped (ip : List Nat) (r : Request) : Bool :=
  match lookupHandler r.messageType with
  | none => true
  | some hk =>
    match r.clientID with
    | none => true
    | some duid =>
      match resolveDUID duid with
      | none => true
      | some mac =>
        if ip.length = 16 ∧ isIPv4Mapped ip = false then
          if mac.length = 6 then
            match hk with
            | .releaseH => false
            | .solicitH =>
              match r.ianas with
              | [] => true
              | [ia] =>
                if r.messageType = .solicit then false
                else decide (ia.iaaddrs = [])
              | _ :: _ :: _ => true
          else true
        else true

/-- The freshly advertised address of a handler result: the IP of the
last IAAddr of the last reply option, when that option is an IANA. -/
def advertisedFresh (o : HandlerOut) : Option (List Nat) :=
  match o.w.options.getLast? with
  | some (.iana ia) => ia.iaaddrs.getLast?.map IAAddr.ip
  | _ => none

/-- A reply accumulator with nothing accumulated and nothing sent. -/
def emptySender : Sender := ⟨[], []⟩

/-- A 16-byte configured serving address (`dead:beef:2018::/64`). -/
def exampleIP : List Nat :=
  [0xde, 0xad, 0xbe, 0xef, 0x20, 0x18, 0, 0, 0, 0, 0, 0, 0, 0, 0, 0]

/-- A DUID-LL carrying a 48-bit MAC. -/
def exampleDUID : List Nat := [0, 3, 0, 1, 1, 2, 3, 4, 5, 6]

/-- The MAC carried by `exampleDUID`. -/
def exampleMAC : List Nat := [1, 2, 3, 4, 5, 6]

/-- An IAAddr a client might echo back. -/
def echoedIAAddr : IAAddr := ⟨[1, 1, 1, 1, 1, 1, 1, 1, 1, 1, 1, 1, 1, 1, 1, 1], 100, 200, []⟩

/-- An IANA holding one echoed IAAddr. -/
def ianaOneAddr : IANA := ⟨[0, 0, 0, 1], 0, 0, [echoedIAAddr]⟩

/-- An IANA holding two echoed IAAddr entries. -/
def ianaTwoAddrs : IANA := ⟨[0, 0, 0, 2], 0, 0, [echoedIAAddr, echoedIAAddr]⟩

/-- An IANA holding no IAAddr entries. -/
def ianaEmpty : IANA := ⟨[0, 0, 0, 3], 7, 9, []⟩

/-- A Request message whose single IANA already holds one IAAddr. -/
def requestOneAddr : Request :=
  ⟨.request, [1, 2, 3], [10, 0, 0, 1], some exampleDUID, [ianaOneAddr], none, 80⟩

/-- A Request message whose single IANA holds two IAAddr entries. -/
def requestTwoAddrs : Request :=
  ⟨.request, [1, 2, 4], [10, 0, 0, 1], some exampleDUID, [ianaTwoAddrs], none, 92⟩

/-- A Release message whose DUID-LL carries a 16-bit hardware address,
so address synthesis fails. -/
def releaseShortMAC : Request :=
  ⟨.release, [1, 2, 5], [10, 0, 0, 1], some [0, 3, 0, 1, 0xaa, 0xbb], [], none, 30⟩

/-- A well-formed Release message. -/
def releaseOk : Request :=
  ⟨.release, [1, 2, 6], [10, 0, 0, 1], some exampleDUID, [], none, 30⟩

/-- A Request message carrying two Identity Associations. -/
def requestTwoIANAs : Request :=
  ⟨.request, [1, 2, 7], [10, 0, 0, 1], some exampleDUID, [ianaEmpty, ianaOneAddr], none, 120⟩

/-- A Solicit message with one empty IANA. -/
def solicitEmptyIA : Request :=
  ⟨.solicit, [1, 2, 8], [10, 0, 0, 1], some exampleDUID, [ianaEmpty], none, 64⟩

/-- A second Solicit for the same client: same DUID, different
transaction, IAID and remote details. -/
def solicitEmptyIA2 : Request :=
  ⟨.solicit, [9, 9, 9], [10, 0, 0, 2], some exampleDUID, [⟨[0, 0, 0, 4], 1, 2, []⟩], some [23, 24], 70⟩

/-- A Release message with no client identifier. -/
def releaseNoClientID : Request :=
  ⟨.release, [1, 3, 0], [10, 0, 0, 1], none, [], none, 12⟩

/-- A Confirm message whose DUID is neither LLT nor LL (type code 2). -/
def confirmBadDUID : Request :=
  ⟨.confirm, [1, 3, 1], [10, 0, 0, 1], some [0, 2, 1, 2, 3, 4], [ianaOneAddr], none, 50⟩

/-- An Information-Request message, absent from the dispatch table. -/
def infoRequest : Request :=
  ⟨.informationRequest, [1, 3, 2], [10, 0, 0, 1], some exampleDUID, [], none, 44⟩

/-! ## Helper lemmas -/

theorem eui64Interface_length (mac : List Nat) (h : mac.length = 6) :
    (eui64Interface mac).length = 8 := by
  rcases mac with _ | ⟨a, _ | ⟨b, _ | ⟨c, _ | ⟨d, _ | ⟨e, _ | ⟨f, rest⟩⟩⟩⟩⟩⟩ <;>
    simp_all [eui64Interface]

theorem addressFor_length (ip mac : List Nat) (h16 : ip.length = 16)
    (h6 : mac.length = 6) : (addressFor ip mac).length = 16 := by
  have h8 := eui64Interface_length mac h6
  simp only [addressFor, List.length_append, List.length_take, h16, h8]
  omega

theorem handle_run (ip : List Nat) (w : Sender) (r : Request) (hk : HKind)
    (duid mac : List Nat)
    (hhk : lookupHandler r.messageType = some hk)
    (hcid : r.clientID = some duid)
    (hres : resolveDUID duid = some mac)
    (h16 : ip.length = 16) (hmap : isIPv4Mapped ip = false)
    (hm : mac.length = 6) :
    handle ip w r =
      ⟨(runHandler hk (addressFor ip mac) w r).w,
       dispatchLogs duid (addressFor ip mac) mac r ++
         (runHandler hk (addressFor ip mac) w r).log,
       (runHandler hk (addressFor ip mac) w r).err⟩ := by
  simp [handle, hhk, hcid, hres, parseIP, parseMAC, h16, hmap, hm, addressFor]

theorem solicitHandler_advertise (ip2 : List Nat) (w : Sender) (r : Request)
    (ia : IANA) (hianas : r.ianas = [ia]) (h16 : ip2.length = 16)
    (hcase : r.messageType = .solicit ∨ ia.iaaddrs ≠ []) :
    (solicitHandler ip2 w r).w =
      ⟨w.options ++ [.preference 255,
         .iana { ia with iaaddrs := ia.iaaddrs ++ [⟨ip2, 60, 90, []⟩] }],
       w.sends ++ [.advertise]⟩ ∧
    (solicitHandler ip2 w r).err = none := by
  by_cases hmt : r.messageType = .solicit
  · obtain ⟨iaid, t1, t2, addrs⟩ := ia
    cases addrs <;>
      simp [solicitHandler, hianas, hmt, newIAAddr, NewIAAddr, h16,
        addReplyOption, send]
  · rcases hcase with h | h
    · exact absurd h hmt
    · obtain ⟨iaid, t1, t2, addrs⟩ := ia
      cases addrs with
      | nil => simp at h
      | cons iaa tail =>
        simp [solicitHandler, hianas, hmt, NewIAAddr, h16, addReplyOption, send]

theorem solicitHandler_drop_empty (ip2 : List Nat) (w : Sender) (r : Request)
    (ia : IANA) (hianas : r.ianas = [ia]) (hmt : r.messageType ≠ .solicit)
    (hia : ia.iaaddrs = []) :
    solicitHandler ip2 w r =
      ⟨addReplyOption w (.preference 255),
       [.ianaInfo ia.iaid ia.t1 ia.t2], none⟩ := by
  simp [solicitHandler, hianas, hia, hmt]

theorem solicitHandler_too_many (ip2 : List Nat) (w : Sender) (r : Request)
    (h : 2 ≤ r.ianas.length) :
    solicitHandler ip2 w r = ⟨w, [.tooManyIANAs], none⟩ := by
  rcases hE : r.ianas with _ | ⟨ia, rest⟩
  · rw [hE] at h; simp at h
  · rcases rest with _ | ⟨ia2, rest2⟩
    · rw [hE] at h; simp at h
    · have hgt : (ia :: ia2 :: rest2).length > 1 := by
        simp only [List.length_cons]; omega
      simp [solicitHandler, hE, hgt]

/-! ## Claim theorems -/

/-- Claim C2: for every Solicit request carrying exactly one Identity
Association with no IAAddr entries (over a resolvable client identity
and a valid configured prefix), the server sends one response of
message type Advertise whose options are a Preference option of value
255 followed by the client's Identity Association (same IAID) holding
exactly one IAAddr with the synthesized address, preferred lifetime 60
seconds and valid lifetime 90 seconds. -/
theorem c2_solicit_advertise (ip : List Nat) (w : Sender) (r : Request)
    (ia : IANA) (duid mac : List Nat)
    (hmt : r.messageType = .solicit)
    (hcid : r.clientID = some duid)
    (hres : resolveDUID duid = some mac)
    (hm : mac.length = 6)
    (h16 : ip.length = 16) (hmap : isIPv4Mapped ip = false)
    (hianas : r.ianas = [ia]) (hia : ia.iaaddrs = []) :
    (handle ip w r).w =
      ⟨w.options ++ [.preference 255,
         .iana { ia with iaaddrs := [⟨addressFor ip mac, 60, 90, []⟩] }],
       w.sends ++ [.advertise]⟩ ∧
    (handle ip w r).err = none := by
  have hhk : lookupHandler r.messageType = some .solicitH := by rw [hmt]; rfl
  have hrun := handle_run ip w r .solicitH duid mac hhk hcid hres h16 hmap hm
  have h16b := addressFor_length ip mac h16 hm
  have hadv := solicitHandler_advertise (addressFor ip mac) w r ia hianas h16b
    (Or.inl hmt)
  have hw : (handle ip w r).w = (solicitHandler (addressFor ip mac) w r).w := by
    rw [hrun]; rfl
  have he : (handle ip w r).err = (solicitHandler (addressFor ip mac) w r).err := by
    rw [hrun]; rfl
  rw [hw, he]
  simpa [hia] using hadv

/-- Claim C2 witness: the theorem instantiated on a concrete Solicit
carrying one empty Identity Association. -/
theorem c2_solicit_advertise_witness :
    (handle exampleIP emptySender solicitEmptyIA).w =
      ⟨[.preference 255,
         .iana { ianaEmpty with
                   iaaddrs := [⟨addressFor exampleIP exampleMAC, 60, 90, []⟩] }],
       [.advertise]⟩ ∧
    (handle exampleIP emptySender solicitEmptyIA).err = none :=
  c2_solicit_advertise exampleIP emptySender solicitEmptyIA ianaEmpty
    exampleDUID exampleMAC rfl rfl (by decide) rfl rfl (by decide) rfl rfl

/-- Claim C1 counterexample: a Request carrying exactly one Identity
Association with a prior IAAddr is answered with message type
Advertise, not Reply, so the claimed Reply is never sent. -/
theorem c1_counterexample :
    (handle exampleIP emptySender requestOneAddr).w.sends =
      [MessageType.advertise] ∧
    MessageType.advertise ≠ MessageType.reply := by
  decide

/-- Claim C1 (amended): with a resolvable client identity over a valid
configured prefix, (1) a Request or Confirm whose single Identity
Association already holds at least one IAAddr is answered with message
type Advertise carrying Preference 255 and the Identity Association
with one freshly synthesized IAAddr (60s/90s lifetimes) appended after
the echoed entries; (2) a Request or Confirm whose single Identity
Association holds no IAAddr is dropped, transmitting nothing; (3) Renew
and Rebind are not in the dispatch table and are logged and dropped. -/
theorem c1_amended :
    (∀ ip w r ia duid mac,
      (r.messageType = .request ∨ r.messageType = .confirm) →
      r.clientID = some duid → resolveDUID duid = some mac →
      mac.length = 6 → ip.length = 16 → isIPv4Mapped ip = false →
      r.ianas = [ia] → ia.iaaddrs ≠ [] →
      (handle ip w r).w =
        ⟨w.options ++ [.preference 255,
           .iana { ia with
                     iaaddrs := ia.iaaddrs ++ [⟨addressFor ip mac, 60, 90, []⟩] }],
         w.sends ++ [.advertise]⟩) ∧
    (∀ ip w r ia duid mac,
      (r.messageType = .request ∨ r.messageType = .confirm) →
      r.clientID = some duid → resolveDUID duid = some mac →
      mac.length = 6 → ip.length = 16 → isIPv4Mapped ip = false →
      r.ianas = [ia] → ia.iaaddrs = [] →
      (handle ip w r).w.sends = w.sends) ∧
    (∀ ip w r, (r.messageType = .renew ∨ r.messageType = .rebind) →
      handle ip w r = ⟨w, [.unrecognizedType r.messageType], none⟩) := by
  refine ⟨?_, ?_, ?_⟩
  · intro ip w r ia duid mac hmt hcid hres hm h16 hmap hianas hia
    have hhk : lookupHandler r.messageType = some .solicitH := by
      rcases hmt with h | h <;> rw [h] <;> rfl
    have hrun := handle_run ip w r .solicitH duid mac hhk hcid hres h16 hmap hm
    have hadv := solicitHandler_advertise (addressFor ip mac) w r ia hianas
      (addressFor_length ip mac h16 hm) (Or.inr hia)
    have hw : (handle ip w r).w = (solicitHandler (addressFor ip mac) w r).w := by
      rw [hrun]; rfl
    rw [hw]
    exact hadv.1
  · intro ip w r ia duid mac hmt hcid hres hm h16 hmap hianas hia
    have hhk : lookupHandler r.messageType = some .solicitH := by
      rcases hmt with h | h <;> rw [h] <;> rfl
    have hS : r.messageType ≠ .solicit := by
      rcases hmt with h | h <;> rw [h] <;> simp
    have hrun := handle_run ip w r .solicitH duid mac hhk hcid hres h16 hmap hm
    have hw : (handle ip w r).w = (solicitHandler (addressFor ip mac) w r).w := by
      rw [hrun]; rfl
    rw [hw, solicitHandler_drop_empty (addressFor ip mac) w r ia hianas hS hia]
    rfl
  · intro ip w r hmt
    rcases hmt with h | h <;> simp [handle, lookupHandler, h]

/-- Claim C1 witness: the amended theorem's first part instantiated on
a concrete Request whose Identity Association echoes one IAAddr. -/
theorem c1_amended_witness :
    (handle exampleIP emptySender requestOneAddr).w =
      ⟨[.preference 255,
         .iana { ianaOneAddr with
                   iaaddrs := ianaOneAddr.iaaddrs ++
                     [⟨addressFor exampleIP exampleMAC, 60, 90, []⟩] }],
       [.advertise]⟩ :=
  c1_amended.1 exampleIP emptySender requestOneAddr ianaOneAddr exampleDUID
    exampleMAC (Or.inl rfl) rfl (by decide) rfl rfl (by decide) rfl (by decide)

/-- Claim C3 counterexample: a Request whose single Identity
Association carries two IAAddr entries is not dropped — an Advertise
is transmitted for it. -/
theorem c3_counterexample :
    (handle exampleIP emptySender requestTwoAddrs).w.sends ≠ [] ∧
    (handle exampleIP emptySender requestTwoAddrs).w.sends =
      [MessageType.advertise] := by
  decide

/-- Claim C3 (amended): an Identity Association carrying two or more
IAAddr entries is not rejected — entries beyond the first are ignored
and the request is answered with an Advertise exactly as with one
entry; what is dropped (no transmission) and logged as unsupported is
a request carrying two or more Identity Associations. -/
theorem c3_amended :
    (∀ ip w r ia duid mac,
      (r.messageType = .solicit ∨ r.messageType = .request ∨
        r.messageType = .confirm) →
      r.clientID = some duid → resolveDUID duid = some mac →
      mac.length = 6 → ip.length = 16 → isIPv4Mapped ip = false →
      r.ianas = [ia] → 2 ≤ ia.iaaddrs.length →
      (handle ip w r).w.sends = w.sends ++ [.advertise]) ∧
    (∀ ip w r duid mac,
      (r.messageType = .solicit ∨ r.messageType = .request ∨
        r.messageType = .confirm) →
      r.clientID = some duid → resolveDUID duid = some mac →
      mac.length = 6 → ip.length = 16 → isIPv4Mapped ip = false →
      2 ≤ r.ianas.length →
      (handle ip w r).w.sends = w.sends ∧
        LogEntry.tooManyIANAs ∈ (handle ip w r).log) := by
  constructor
  · intro ip w r ia duid mac hmt hcid hres hm h16 hmap hianas hlen
    have hhk : lookupHandler r.messageType = some .solicitH := by
      rcases hmt with h | h | h <;> rw [h] <;> rfl
    have hia : ia.iaaddrs ≠ [] := by
      intro hc; rw [hc] at hlen; simp at hlen
    have hrun := handle_run ip w r .solicitH duid mac hhk hcid hres h16 hmap hm
    have hadv := solicitHandler_advertise (addressFor ip mac) w r ia hianas
      (addressFor_length ip mac h16 hm) (Or.inr hia)
    have hw : (handle ip w r).w = (solicitHandler (addressFor ip mac) w r).w := by
      rw [hrun]; rfl
    rw [hw, hadv.1]
  · intro ip w r duid mac hmt hcid hres hm h16 hmap hlen
    have hhk : lookupHandler r.messageType = some .solicitH := by
      rcases hmt with h | h | h <;> rw [h] <;> rfl
    have hrun := handle_run ip w r .solicitH duid mac hhk hcid hres h16 hmap hm
    have hmany := solicitHandler_too_many (addressFor ip mac) w r hlen
    have hw : (handle ip w r).w = (solicitHandler (addressFor ip mac) w r).w := by
      rw [hrun]; rfl
    have hlog : (handle ip w r).log =
        dispatchLogs duid (addressFor ip mac) mac r ++
          (solicitHandler (addressFor ip mac) w r).log := by
      rw [hrun]; rfl
    constructor
    · rw [hw, hmany]
    · rw [hlog, hmany]; simp

/-- Claim C3 amended witness: the first part on a Request whose single
Identity Association carries two IAAddr entries, the second on a
Request carrying two Identity Associations. -/
theorem c3_amended_witness :
    (handle exampleIP emptySender requestTwoAddrs).w.sends =
      [MessageType.advertise] ∧
    ((handle exampleIP emptySender requestTwoIANAs).w.sends = [] ∧
      LogEntry.tooManyIANAs ∈ (handle exampleIP emptySender requestTwoIANAs).log) :=
  ⟨c3_amended.1 exampleIP emptySender requestTwoAddrs ianaTwoAddrs exampleDUID
     exampleMAC (Or.inr (Or.inl rfl)) rfl (by decide) rfl rfl (by decide) rfl
     (by decide),
   c3_amended.2 exampleIP emptySender requestTwoIANAs exampleDUID exampleMAC
     (Or.inr (Or.inl rfl)) rfl (by decide) rfl rfl (by decide) (by decide)⟩

/-- Claim C4: client identity resolution tries DUID-LLT first, then
DUID-LL, taking the first success (so the extracted MAC comes from
whichever variant decoded first); for a dispatched message type, a
missing client identifier, or a client identifier on which both
decoders fail, leads to a drop: the sender is untouched, the failure is
logged, and no error is returned. -/
theorem c4_duid_fallback :
    (∀ duid, resolveDUID duid =
      (decodeDUIDLLT duid).or (decodeDUIDLL duid)) ∧
    (∀ ip w r duid, (lookupHandler r.messageType).isSome = true →
      r.clientID = some duid → resolveDUID duid = none →
      handle ip w r = ⟨w, [.unknownDUID], none⟩) ∧
    (∀ ip w r, (lookupHandler r.messageType).isSome = true →
      r.clientID = none →
      handle ip w r = ⟨w, [.clientIDNotFound], none⟩) := by
  refine ⟨?_, ?_, ?_⟩
  · intro duid
    rcases hL : decodeDUIDLLT duid with _ | m <;>
      rcases hLL : decodeDUIDLL duid with _ | m2 <;>
        simp [resolveDUID, hL, hLL, Option.or]
  · intro ip w r duid hhk hcid hres
    obtain ⟨hk, hk_eq⟩ := Option.isSome_iff_exists.mp hhk
    simp [handle, hk_eq, hcid, hres]
  · intro ip w r hhk hcid
    obtain ⟨hk, hk_eq⟩ := Option.isSome_iff_exists.mp hhk
    simp [handle, hk_eq, hcid]

/-- Claim C4 witness: a Confirm whose DUID has type code 2 decodes as
neither variant and is dropped with only a log line; and the resolution
of a decodable DUID equals the LLT-then-LL first success. -/
theorem c4_duid_fallback_witness :
    handle exampleIP emptySender confirmBadDUID =
      ⟨emptySender, [LogEntry.unknownDUID], none⟩ ∧
    resolveDUID exampleDUID =
      (decodeDUIDLLT exampleDUID).or (decodeDUIDLL exampleDUID) :=
  ⟨c4_duid_fallback.2.1 exampleIP emptySender confirmBadDUID
     [0, 2, 1, 2, 3, 4] (by decide) rfl (by decide),
   c4_duid_fallback.1 exampleDUID⟩

/-- Claim C5 counterexample: a Release request whose DUID-LL carries a
16-bit hardware address is aborted by the shared address-synthesis
step — no Reply (nothing at all) is transmitted, and the synthesis
error is returned — refuting both that every Release request gets a
Reply and that no address computation is performed for it. -/
theorem c5_counterexample :
    (handle exampleIP emptySender releaseShortMAC).w.sends = [] ∧
    (handle exampleIP emptySender releaseShortMAC).err = some Err.invalidMAC := by
  decide

/-- Claim C5 (amended): a Release request still runs the shared
identity-resolution and address-synthesis path; when those succeed the
server sends one response of message type Reply with no Identity
Association and no address options attached (the accumulator is left
untouched), and returns no error. -/
theorem c5_amended (ip : List Nat) (w : Sender) (r : Request)
    (duid mac : List Nat)
    (hmt : r.messageType = .release)
    (hcid : r.clientID = some duid) (hres : resolveDUID duid = some mac)
    (hm : mac.length = 6) (h16 : ip.length = 16)
    (hmap : isIPv4Mapped ip = false) :
    (handle ip w r).w = ⟨w.options, w.sends ++ [.reply]⟩ ∧
    (handle ip w r).err = none := by
  have hhk : lookupHandler r.messageType = some .releaseH := by rw [hmt]; rfl
  have hrun := handle_run ip w r .releaseH duid mac hhk hcid hres h16 hmap hm
  have hw : (handle ip w r).w = (releaseHandler (addressFor ip mac) w r).w := by
    rw [hrun]; rfl
  have he : (handle ip w r).err = (releaseHandler (addressFor ip mac) w r).err := by
    rw [hrun]; rfl
  exact ⟨by rw [hw]; rfl, by rw [he]; rfl⟩

/-- Claim C5 witness: the amended theorem on a well-formed Release. -/
theorem c5_amended_witness :
    (handle exampleIP emptySender releaseOk).w = ⟨[], [MessageType.reply]⟩ ∧
    (handle exampleIP emptySender releaseOk).err = none :=
  c5_amended exampleIP emptySender releaseOk exampleDUID exampleMAC rfl rfl
    (by decide) rfl rfl (by decide)

/-- Claim C7: a request whose message type is none of Solicit, Request,
Confirm or Release never reaches a handler: the sender is returned
untouched (nothing transmitted, nothing accumulated), the type is
logged, and no error is returned. -/
theorem c7_unrecognized_dropped (ip : List Nat) (w : Sender) (r : Request)
    (h1 : r.messageType ≠ .solicit) (h2 : r.messageType ≠ .request)
    (h3 : r.messageType ≠ .confirm) (h4 : r.messageType ≠ .release) :
    handle ip w r = ⟨w, [.unrecognizedType r.messageType], none⟩ := by
  have hhk : lookupHandler r.messageType = none := by
    cases hmt : r.messageType <;> simp_all [lookupHandler]
  simp [handle, hhk]

/-- Claim C7 witness: an Information-Request is logged and dropped. -/
theorem c7_unrecognized_dropped_witness :
    handle exampleIP emptySender infoRequest =
      ⟨emptySender, [.unrecognizedType .informationRequest], none⟩ :=
  c7_unrecognized_dropped exampleIP emptySender infoRequest
    (by decide) (by decide) (by decide) (by decide)

/-- Claim C9: when the invoked handler returns an error, the top-level
dispatch appends exactly one log entry for it and returns the sender as
the handler left it — no retry changes the sent messages, and the
dispatch entry point's result type carries no error, so nothing
propagates to its caller and the process continues. -/
theorem c9_error_logged (ip : List Nat) (w : Sender) (r : Request) (e : Err)
    (h : (handle ip w r).err = some e) :
    ServeDHCP ip w r =
      ((handle ip w r).w, (handle ip w r).log ++ [.handlerError e]) := by
  simp [ServeDHCP, h]

/-- Claim C9 witness: the synthesis error of a Release with a short
hardware address is logged by the dispatch and goes nowhere else. -/
theorem c9_error_logged_witness :
    ServeDHCP exampleIP emptySender releaseShortMAC =
      ((handle exampleIP emptySender releaseShortMAC).w,
       (handle exampleIP emptySender releaseShortMAC).log ++
         [.handlerError .invalidMAC]) :=
  c9_error_logged exampleIP emptySender releaseShortMAC .invalidMAC (by decide)

theorem handle_solicit_fresh (ip : List Nat) (w : Sender) (r : Request)
    (ia : IANA) (duid mac : List Nat)
    (hmt : r.messageType = .solicit) (hcid : r.clientID = some duid)
    (hres : resolveDUID duid = some mac) (hm : mac.length = 6)
    (h16 : ip.length = 16) (hmap : isIPv4Mapped ip = false)
    (hianas : r.ianas = [ia]) :
    advertisedFresh (handle ip w r) = some (addressFor ip mac) := by
  have hhk : lookupHandler r.messageType = some .solicitH := by rw [hmt]; rfl
  have hrun := handle_run ip w r .solicitH duid mac hhk hcid hres h16 hmap hm
  have hadv := solicitHandler_advertise (addressFor ip mac) w r ia hianas
    (addressFor_length ip mac h16 hm) (Or.inl hmt)
  have hw : (handle ip w r).w = (solicitHandler (addressFor ip mac) w r).w := by
    rw [hrun]; rfl
  unfold advertisedFresh
  rw [hw, hadv.1]
  simp [List.getLast?_append_cons]

/-- Claim C6: the advertised address is a pure function of the
configured prefix and the client MAC — any two Solicit requests whose
client identifiers resolve to the same MAC (whatever their transaction,
IAID, echoed addresses or accumulator state) are answered with the
identical synthesized IPv6 address, so repeated dispatch of the same
Solicit always offers the same address. -/
theorem c6_address_pure (ip : List Nat) (w1 w2 : Sender) (r1 r2 : Request)
    (ia1 ia2 : IANA) (duid1 duid2 mac : List Nat)
    (h16 : ip.length = 16) (hmap : isIPv4Mapped ip = false)
    (hm : mac.length = 6)
    (hmt1 : r1.messageType = .solicit) (hcid1 : r1.clientID = some duid1)
    (hres1 : resolveDUID duid1 = some mac) (hianas1 : r1.ianas = [ia1])
    (hmt2 : r2.messageType = .solicit) (hcid2 : r2.clientID = some duid2)
    (hres2 : resolveDUID duid2 = some mac) (hianas2 : r2.ianas = [ia2]) :
    advertisedFresh (handle ip w1 r1) = some (addressFor ip mac) ∧
    advertisedFresh (handle ip w2 r2) = some (addressFor ip mac) :=
  ⟨handle_solicit_fresh ip w1 r1 ia1 duid1 mac hmt1 hcid1 hres1 hm h16 hmap
     hianas1,
   handle_solicit_fresh ip w2 r2 ia2 duid2 mac hmt2 hcid2 hres2 hm h16 hmap
     hianas2⟩

/-- Claim C6 witness: two Solicits for the same client MAC (different
transaction, IAID, requested options and accumulator state) are both
answered with the same synthesized address. -/
theorem c6_address_pure_witness :
    advertisedFresh (handle exampleIP emptySender solicitEmptyIA) =
      some (addressFor exampleIP exampleMAC) ∧
    advertisedFresh (handle exampleIP ⟨[.preference 1], []⟩ solicitEmptyIA2) =
      some (addressFor exampleIP exampleMAC) :=
  c6_address_pure exampleIP emptySender ⟨[.preference 1], []⟩ solicitEmptyIA
    solicitEmptyIA2 ianaEmpty ⟨[0, 0, 0, 4], 1, 2, []⟩ exampleDUID exampleDUID
    exampleMAC rfl (by decide) rfl rfl rfl (by decide) rfl rfl rfl (by decide)
    rfl

/-- Claim C10 counterexample: a Request that reaches the
Identity-Association handler with two Identity Associations (so at
least one) is dropped before the Preference option is accumulated —
no Preference 255 is added to the reply accumulator. -/
theorem c10_counterexample :
    1 ≤ requestTwoIANAs.ianas.length ∧
    (handle exampleIP emptySender requestTwoIANAs).w.options = [] := by
  decide

/-- Claim C10 (amended): for every handled non-Release message
(Solicit, Request or Confirm) that reaches the Identity-Association
handler with exactly one Identity Association, a Preference option of
value 255 is accumulated directly after the caller's options and
before any IAAddr validation — in particular Request and Confirm
accumulate it too, whatever the Identity Association's IAAddr
contents. -/
theorem c10_amended (ip : List Nat) (w : Sender) (r : Request) (ia : IANA)
    (duid mac : List Nat)
    (hmt : r.messageType = .solicit ∨ r.messageType = .request ∨
      r.messageType = .confirm)
    (hcid : r.clientID = some duid) (hres : resolveDUID duid = some mac)
    (hm : mac.length = 6) (h16 : ip.length = 16)
    (hmap : isIPv4Mapped ip = false) (hianas : r.ianas = [ia]) :
    ∃ rest, (handle ip w r).w.options =
      w.options ++ [ReplyOption.preference 255] ++ rest := by
  have hhk : lookupHandler r.messageType = some .solicitH := by
    rcases hmt with h | h | h <;> rw [h] <;> rfl
  have hrun := handle_run ip w r .solicitH duid mac hhk hcid hres h16 hmap hm
  have hw : (handle ip w r).w = (solicitHandler (addressFor ip mac) w r).w := by
    rw [hrun]; rfl
  by_cases hS : r.messageType = .solicit
  · obtain ⟨hadv, -⟩ := solicitHandler_advertise (addressFor ip mac) w r ia
      hianas (addressFor_length ip mac h16 hm) (Or.inl hS)
    refine ⟨[.iana { ia with
      iaaddrs := ia.iaaddrs ++ [⟨addressFor ip mac, 60, 90, []⟩] }], ?_⟩
    rw [hw, hadv]; simp
  · by_cases hE : ia.iaaddrs = []
    · refine ⟨[], ?_⟩
      rw [hw, solicitHandler_drop_empty (addressFor ip mac) w r ia hianas hS hE]
      simp [addReplyOption]
    · obtain ⟨hadv, -⟩ := solicitHandler_advertise (addressFor ip mac) w r ia
        hianas (addressFor_length ip mac h16 hm) (Or.inr hE)
      refine ⟨[.iana { ia with
        iaaddrs := ia.iaaddrs ++ [⟨addressFor ip mac, 60, 90, []⟩] }], ?_⟩
      rw [hw, hadv]; simp

/-- Claim C10 witness: a Confirm with one echoed IAAddr accumulates
Preference 255 right after the (empty) initial accumulator. -/
theorem c10_amended_witness :
    ∃ rest, (handle exampleIP emptySender
      ⟨.confirm, [2, 2, 2], [10, 0, 0, 3], some exampleDUID, [ianaOneAddr],
        none, 66⟩).w.options =
      emptySender.options ++ [ReplyOption.preference 255] ++ rest :=
  c10_amended exampleIP emptySender
    ⟨.confirm, [2, 2, 2], [10, 0, 0, 3], some exampleDUID, [ianaOneAddr],
      none, 66⟩ ianaOneAddr exampleDUID exampleMAC (Or.inr (Or.inr rfl)) rfl
    (by decide) rfl rfl (by decide) rfl

/-- Claim C8: on every execution path of the core for a single request,
the finalize-and-transmit operation runs at most once — the sender's
transmit list either is unchanged (exactly on the dropped/aborted
requests characterized by `isDropped`) or grows by exactly one
message. -/
theorem c8_send_at_most_once (ip : List Nat) (w : Sender) (r : Request) :
    (isDropped ip r = true ∧ (handle ip w r).w.sends = w.sends) ∨
    (isDropped ip r = false ∧
      ∃ mt, (handle ip w r).w.sends = w.sends ++ [mt]) := by
  cases hhk : lookupHandler r.messageType with
  | none =>
    exact Or.inl ⟨by simp [isDropped, hhk], by simp [handle, hhk]⟩
  | some hk =>
    cases hcid : r.clientID with
    | none =>
      exact Or.inl ⟨by simp [isDropped, hhk, hcid], by simp [handle, hhk, hcid]⟩
    | some duid =>
      cases hres : resolveDUID duid with
      | none =>
        exact Or.inl ⟨by simp [isDropped, hhk, hcid, hres],
          by simp [handle, hhk, hcid, hres]⟩
      | some mac =>
        by_cases hip : ip.length = 16 ∧ isIPv4Mapped ip = false
        · by_cases hm : mac.length = 6
          · have hrun := handle_run ip w r hk duid mac hhk hcid hres hip.1
              hip.2 hm
            cases hk with
            | releaseH =>
              refine Or.inr ⟨by simp [isDropped, hhk, hcid, hres, hip.1,
                hip.2, hm], ⟨.reply, ?_⟩⟩
              have hw : (handle ip w r).w =
                  (releaseHandler (addressFor ip mac) w r).w := by
                rw [hrun]; rfl
              rw [hw]; rfl
            | solicitH =>
              have hw : (handle ip w r).w =
                  (solicitHandler (addressFor ip mac) w r).w := by
                rw [hrun]; rfl
              rcases hianas : r.ianas with _ | ⟨ia, rest⟩
              · refine Or.inl ⟨by simp [isDropped, hhk, hcid, hres, hip.1,
                  hip.2, hm, hianas], ?_⟩
                rw [hw]
                simp [solicitHandler, hianas]
              · rcases rest with _ | ⟨ia2, rest2⟩
                · by_cases hS : r.messageType = .solicit
                  · refine Or.inr ⟨by simp [isDropped, lookupHandler, hhk, hcid, hres,
                      hip.1, hip.2, hm, hianas, hS], ⟨.advertise, ?_⟩⟩
                    obtain ⟨hadv, -⟩ := solicitHandler_advertise
                      (addressFor ip mac) w r ia hianas
                      (addressFor_length ip mac hip.1 hm) (Or.inl hS)
                    rw [hw, hadv]
                  · by_cases hE : ia.iaaddrs = []
                    · refine Or.inl ⟨by simp [isDropped, hhk, hcid, hres,
                        hip.1, hip.2, hm, hianas, hS, hE], ?_⟩
                      rw [hw, solicitHandler_drop_empty (addressFor ip mac)
                        w r ia hianas hS hE]
                      rfl
                    · refine Or.inr ⟨by simp [isDropped, hhk, hcid, hres,
                        hip.1, hip.2, hm, hianas, hS, hE], ⟨.advertise, ?_⟩⟩
                      obtain ⟨hadv, -⟩ := solicitHandler_advertise
                        (addressFor ip mac) w r ia hianas
                        (addressFor_length ip mac hip.1 hm) (Or.inr hE)
                      rw [hw, hadv]
                · refine Or.inl ⟨by simp [isDropped, hhk, hcid, hres, hip.1,
                    hip.2, hm, hianas], ?_⟩
                  rw [hw, solicitHandler_too_many (addressFor ip mac) w r
                    (by rw [hianas]; simp)]
          · refine Or.inl ⟨by simp [isDropped, hhk, hcid, hres, hip.1,
              hip.2, hm], ?_⟩
            simp [handle, hhk, hcid, hres, parseIP, parseMAC, hip.1, hip.2, hm]
        · refine Or.inl ⟨by simp [isDropped, hhk, hcid, hres, hip], ?_⟩
          simp [handle, hhk, hcid, hres, parseIP, hip]
